import Mathlib

/-!
# Verification of the Movie-Roulette TV discovery subsystem

Shallow embedding of `utils/tv/base/tv_discovery.py` and
`utils/tv/discovery/webos_discovery.py`.

Python strings are modelled as Lean `String`; the handful of string
operations the code uses (`split`, `strip`, `upper`, `lower`, slicing,
`in`) are given explicit structurally recursive definitions over the
underlying character list so that every claim can be evaluated on
concrete inputs.

Python exceptions are modelled with `Except PyErr`; a `try/except`
block becomes a `match` on the `Except` value.
-/

/-- Python `str.split(sep)` semantics on character lists: splits at every
occurrence of `sep`, keeping empty pieces; splitting the empty string
yields one empty piece. -/
def splitChar (sep : Char) : List Char → List (List Char)
  | [] => [[]]
  | c :: cs =>
    let r := splitChar sep cs
    if c == sep then [] :: r
    else
      match r with
      | [] => [[c]]
      | g :: gs => (c :: g) :: gs

/-- Auxiliary for the substring test. -/
def isPrefixChars : List Char → List Char → Bool
  | [], _ => true
  | _ :: _, [] => false
  | a :: as, b :: bs => a == b && isPrefixChars as bs

/-- Substring occurrence test on character lists. -/
def isInfixChars (needle hay : List Char) : Bool :=
  match hay with
  | [] => isPrefixChars needle []
  | _ :: rest => isPrefixChars needle hay || isInfixChars needle rest

/-- ASCII whitespace as stripped by Python `str.strip()`. -/
def pyWhitespace (c : Char) : Bool :=
  c == ' ' || c == '\t' || c == '\n' || c == '\r' || c == '\x0b' || c == '\x0c'

/-- Python `str.strip()`. -/
def pyStrip (s : String) : String :=
  String.mk (((s.data.dropWhile pyWhitespace).reverse.dropWhile pyWhitespace).reverse)

/-- Python `str.upper()` (the MAC addresses involved are ASCII). -/
def pyUpper (s : String) : String := String.mk (s.data.map Char.toUpper)

/-- Python `str.lower()`. -/
def pyLower (s : String) : String := String.mk (s.data.map Char.toLower)

/-- Python slicing `s[:n]`. -/
def pyTake (s : String) (n : Nat) : String := String.mk (s.data.take n)

/-- Python `str.split(sep)` for a one-character separator. -/
def pySplit (s : String) (sep : Char) : List String := (splitChar sep s.data).map String.mk

/-- Python substring containment `needle in hay`. -/
def str_in (needle hay : String) : Bool := isInfixChars needle.data hay.data

/-- Python `c in s` for a single character `c`. -/
def hasChar (s : String) (c : Char) : Bool := s.data.contains c

/-- Python `str.splitlines()` on the scanner's standard output.  The real
method also recognises `\r`-style terminators and drops a final empty
line; the inputs of interest are `\n`-separated, and a trailing empty
piece contains no tab so the scan loop skips it, making the two
readings agree on every scan result. -/
def pySplitlines (s : String) : List String := pySplit s '\n'

/-- Python exceptions that the embedded code can raise. -/
inductive PyErr where
  /-- `TypeError`, e.g. `'LG Electronics' in None`. -/
  | typeError
  /-- `NameError`, e.g. using the name `socket` in a module that never imports it. -/
  | nameError
  /-- `subprocess.CalledProcessError` from `check=True` on a non-zero exit. -/
  | calledProcessError
  /-- `FileNotFoundError` when the external tool is missing, or any other error. -/
  | otherError
deriving DecidableEq

/-- Decidable equality of `Except` values, so that claims about raised
exceptions can be settled by evaluation. -/
instance instDecEqExcept {ε α : Type} [DecidableEq ε] [DecidableEq α] :
    DecidableEq (Except ε α)
  | Except.error e, Except.error f =>
    if h : e = f then .isTrue (congrArg Except.error h)
    else .isFalse (fun hh => h (Except.error.inj hh))
  | Except.error _, Except.ok _ => .isFalse (fun hh => Except.noConfusion hh)
  | Except.ok _, Except.error _ => .isFalse (fun hh => Except.noConfusion hh)
  | Except.ok a, Except.ok b =>
    if h : a = b then .isTrue (congrArg Except.ok h)
    else .isFalse (fun hh => h (Except.ok.inj hh))

/-- A discovered-device record: the dict literal built at
`tv_discovery.py` lines 61–68. -/
structure Device where
  ip : String
  mac : String
  description : String
  device_type : String
  untested : Bool
  warning : Option String
deriving DecidableEq

/-- Python truthiness of an optional string: `bool(None)` and `bool("")`
are `False`, any other string is `True`.  Used for
`bool(warning_msg)` and for `desc or fallback`. -/
def pyTruthy : Option String → Bool
  | none => false
  | some m => !(m == "")

/-- Python `desc or fallback` where `desc : Optional[str]`. -/
def pyOrElse (desc : Option String) (fallback : String) : String :=
  match desc with
  | some d => if d == "" then fallback else d
  | none => fallback

/-- The abstract interface of `TVDiscoveryBase`
(`tv_discovery.py` lines 9–90): the abstract methods, the overridable
warning hook, and the device-enrichment hook (default: identity, the
no-op of lines 88–90).  `is_tv_device` may raise, hence the `Except`. -/
structure TVDiscoveryBase where
  get_name : String
  get_mac_prefixes : List (String × String)
  get_warning_message : Option String
  is_tv_device : Option String → Except PyErr Bool
  enrich_device_info : Device → Device

/-- Observable calls made by `scan_network` on a per-device basis, used to
state where in the pipeline a device is dropped: `classifyCalled` marks
the membership/heuristic test of line 58, `heuristicCalled` marks an
actual invocation of `_is_tv_device`, `enrichCalled` marks
`_enrich_device_info` (line 71). -/
inductive ScanEvent where
  | classifyCalled (mac : String)
  | heuristicCalled (mac : String) (desc : Option String)
  | enrichCalled (mac : String)
deriving DecidableEq

/-- The MAC address a scan event refers to. -/
def ScanEvent.mac : ScanEvent → String
  | .classifyCalled m => m
  | .heuristicCalled m _ => m
  | .enrichCalled m => m

/-- Parsing of one line of `arp-scan` output
(`tv_discovery.py` lines 42–48): a line without a tab is skipped; the
stripped line is split on tabs; fewer than two fields means the line is
skipped; the third field (description) is optional. -/
def parse_line (line : String) : Option (String × String × Option String) :=
  if !(hasChar line '\t') then none
  else
    let parts := pySplit (pyStrip line) '\t'
    if parts.length ≥ 2 then
      let ip := parts.getD 0 ""
      let mac := parts.getD 1 ""
      let desc := if parts.length > 2 then some (parts.getD 2 "") else none
      some (ip, mac, desc)
    else none

/-- The device dict construction of `tv_discovery.py` lines 59–68:
`description` is the scanner's description if truthy, else the prefix
table's entry, else `"<name> Device"`; `device_type` is the table's
entry or `"Unknown <name> Model"`; `untested` is `bool(warning_msg)`;
`warning` is the warning message verbatim. -/
def make_device (s : TVDiscoveryBase) (ip mac : String) (desc : Option String) : Device :=
  let pfx := pyTake (pyUpper mac) 8
  let warning_msg := s.get_warning_message
  { ip := ip
    mac := mac
    description := pyOrElse desc ((s.get_mac_prefixes.lookup pfx).getD (s.get_name ++ " Device"))
    device_type := (s.get_mac_prefixes.lookup pfx).getD ("Unknown " ++ s.get_name ++ " Model")
    untested := pyTruthy warning_msg
    warning := warning_msg }

/-- The body of the scan loop for one parsed `(ip, mac, desc)` triple
(`tv_discovery.py` lines 50–74).  Returns the calls it performed and
either the accepted device, `none` for a skipped device, or the
exception raised by `_is_tv_device`.  The blacklist test compares MAC
addresses case-insensitively; the acceptance test is Python's
short-circuiting `or`: the prefix-table membership test runs first and,
only when it fails, `_is_tv_device(desc)` is invoked. -/
def process_triple (s : TVDiscoveryBase) (blacklisted_macs : List String)
    (ip mac : String) (desc : Option String) :
    List ScanEvent × Except PyErr (Option Device) :=
  if blacklisted_macs.any (fun addr => pyLower addr == pyLower mac) then
    ([], .ok none)
  else
    let pfx := pyTake (pyUpper mac) 8
    if (s.get_mac_prefixes.lookup pfx).isSome then
      let d := s.enrich_device_info (make_device s ip mac desc)
      ([.classifyCalled mac, .enrichCalled mac], .ok (some d))
    else
      match s.is_tv_device desc with
      | .error e => ([.classifyCalled mac, .heuristicCalled mac desc], .error e)
      | .ok true =>
        let d := s.enrich_device_info (make_device s ip mac desc)
        ([.classifyCalled mac, .heuristicCalled mac desc, .enrichCalled mac], .ok (some d))
      | .ok false => ([.classifyCalled mac, .heuristicCalled mac desc], .ok none)

/-- The scan loop over the scanner's output lines
(`tv_discovery.py` lines 41–75).  An exception raised while processing a
triple propagates immediately, discarding every device accumulated so
far (the surrounding `try` catches it at function level); the events
performed up to that point have already happened. -/
def scan_lines (s : TVDiscoveryBase) (blacklisted_macs : List String) :
    List String → List ScanEvent × Except PyErr (List Device)
  | [] => ([], .ok [])
  | line :: rest =>
    match parse_line line with
    | none => scan_lines s blacklisted_macs rest
    | some (ip, mac, desc) =>
      match process_triple s blacklisted_macs ip mac desc with
      | (evs, .error e) => (evs, .error e)
      | (evs, .ok none) =>
        let (evs', r) := scan_lines s blacklisted_macs rest
        (evs ++ evs', r)
      | (evs, .ok (some d)) =>
        let (evs', r) := scan_lines s blacklisted_macs rest
        (evs ++ evs', r.map (fun ds => d :: ds))

/-- `TVDiscoveryBase.scan_network` (`tv_discovery.py` lines 26–81).
The blacklist (read from settings at line 31) and the outcome of the
`subprocess.run(['arp-scan', '--localnet'], ..., check=True)` call are
inputs: `.error` models `CalledProcessError` (non-zero exit),
`FileNotFoundError` (missing tool) or any other exception from the
scan, `.ok out` models a run whose standard output is `out`.  Both
`except` clauses (lines 76–81) return the empty list, so the caller
never sees an exception. -/
def scan_network (s : TVDiscoveryBase) (blacklisted_macs : List String)
    (arp_scan : Except PyErr String) : List Device :=
  match arp_scan with
  | .error _ => []
  | .ok out =>
    match (scan_lines s blacklisted_macs (pySplitlines out)).2 with
    | .ok devices => devices
    | .error _ => []

/-- The calls performed during `scan_network` (they happen even when a
later exception makes the function return the empty list). -/
def scan_network_events (s : TVDiscoveryBase) (blacklisted_macs : List String)
    (arp_scan : Except PyErr String) : List ScanEvent :=
  match arp_scan with
  | .error _ => []
  | .ok out => (scan_lines s blacklisted_macs (pySplitlines out)).1

/-- The MAC-prefix table of `WebOSDiscovery.get_mac_prefixes`
(`webos_discovery.py` lines 13–84), verbatim. -/
def webos_mac_prefixes : List (String × String) :=
  [ ("00:E0:70", "LG Electronics"),
    ("00:1C:62", "LG Electronics"),
    ("00:1E:75", "LG Electronics"),
    ("00:1F:6B", "LG Electronics"),
    ("00:1F:E3", "LG Electronics"),
    ("00:22:A9", "LG Electronics"),
    ("00:24:83", "LG Electronics"),
    ("00:25:E5", "LG Electronics"),
    ("00:26:E2", "LG Electronics"),
    ("00:34:DA", "LG Electronics"),
    ("00:3A:AF", "LG Electronics"),
    ("00:50:BA", "LG Electronics"),
    ("00:52:A1", "LG Electronics"),
    ("00:AA:70", "LG Electronics"),
    ("00:5A:13", "LG WebOS TV"),
    ("00:C0:38", "LG TV"),
    ("04:4E:5A", "LG WebOS TV"),
    ("08:D4:6A", "LG TV"),
    ("10:68:3F", "LG Electronics TV"),
    ("10:F1:F2", "LG TV"),
    ("10:F9:6F", "LG Electronics TV"),
    ("2C:54:CF", "LG Electronics TV"),
    ("2C:59:8A", "LG Electronics TV"),
    ("34:4D:F7", "LG Electronics TV"),
    ("38:8C:50", "LG Electronics TV"),
    ("3C:BD:D8", "LG Electronics TV"),
    ("40:B0:FA", "LG Electronics TV"),
    ("48:59:29", "LG Electronics TV"),
    ("50:55:27", "LG Electronics TV"),
    ("58:A2:B5", "LG Electronics TV"),
    ("60:E3:AC", "LG Electronics TV"),
    ("64:99:5D", "LG Electronics TV"),
    ("6C:DD:BC", "LG Electronics TV"),
    ("70:91:8F", "LG Electronics TV"),
    ("74:A5:28", "LG Electronics TV"),
    ("78:5D:C8", "LG Electronics TV"),
    ("7C:1C:4E", "LG Electronics TV"),
    ("7C:AB:25", "LG WebOS TV"),
    ("88:36:6C", "LG Electronics TV"),
    ("8C:3C:4A", "LG Electronics TV"),
    ("98:93:CC", "LG Electronics TV"),
    ("98:D6:F7", "LG Electronics TV"),
    ("A0:39:F7", "LG Electronics TV"),
    ("A8:16:B2", "LG Electronics TV"),
    ("A8:23:FE", "LG Electronics TV"),
    ("AC:0D:1B", "LG Electronics TV"),
    ("B4:0E:DC", "LG Smart TV"),
    ("B4:E6:2A", "LG Electronics TV"),
    ("B8:1D:AA", "LG Electronics TV"),
    ("B8:AD:3E", "LG Electronics TV"),
    ("BC:8C:CD", "LG Smart TV"),
    ("BC:F5:AC", "LG Electronics TV"),
    ("C4:36:6C", "LG Electronics TV"),
    ("C4:9A:02", "LG Smart TV"),
    ("C8:02:8F", "LG Electronics TV"),
    ("C8:08:E9", "LG Electronics TV"),
    ("CC:2D:8C", "LG Electronics TV"),
    ("CC:FA:00", "LG Electronics TV"),
    ("D0:13:FD", "LG Electronics TV"),
    ("D8:4D:2C", "LG Electronics TV"),
    ("DC:0B:34", "LG Electronics TV"),
    ("E8:5B:5B", "LG Electronics TV"),
    ("E8:F2:E2", "LG Electronics TV"),
    ("F0:1C:13", "LG Electronics TV"),
    ("F8:0C:F3", "LG Electronics TV"),
    ("FC:4D:8C", "LG WebOS TV") ]

/-- `WebOSDiscovery._is_tv_device` (`webos_discovery.py` lines 89–90):
`'LG Electronics' in desc or 'WebOS' in desc`.  When `desc` is `None`
(scanner line with no description field), the `in` operator raises
`TypeError: argument of type 'NoneType' is not iterable`; there is no
`None` guard. -/
def webos_is_tv_device : Option String → Except PyErr Bool
  | none => .error .typeError
  | some d => .ok (str_in "LG Electronics" d || str_in "WebOS" d)

/-- The `WebOSDiscovery` strategy (`webos_discovery.py`):
`get_name` returns `"LG WebOS"` (line 87), `get_warning_message`
returns `None` (lines 133–134), and `_enrich_device_info` is the
inherited no-op default. -/
def WebOSDiscovery : TVDiscoveryBase :=
  { get_name := "LG WebOS"
    get_mac_prefixes := webos_mac_prefixes
    get_warning_message := none
    is_tv_device := webos_is_tv_device
    enrich_device_info := id }

/-- The network environment a reachability probe runs against:
`nc_exit p` is the exit code of `nc -zv -w1 ip p` (`none` models the
spawn itself raising, e.g. netcat not installed); `tcp_open p` says
whether a raw TCP connect to port `p` of the target would succeed;
`dns_resolves` says whether reverse resolution of the target would
succeed. -/
structure ProbeEnv where
  nc_exit : Nat → Option Int
  tcp_open : Nat → Bool
  dns_resolves : Bool

/-- The WebOS control ports tried by both probe steps
(`webos_discovery.py` lines 103 and 141). -/
def webos_ports : List Nat := [3000, 3001, 8080, 8001, 8002]

/-- The port loop of `WebOSDiscovery._test_connection_nc`
(`webos_discovery.py` lines 142–153): return at the first zero exit
code; a raised spawn error aborts the loop (`.error`). -/
def nc_loop (env : ProbeEnv) : List Nat → Except PyErr Bool
  | [] => .ok false
  | p :: rest =>
    match env.nc_exit p with
    | none => .error .otherError
    | some code => if code == 0 then .ok true else nc_loop env rest

/-- `WebOSDiscovery._test_connection_nc` (`webos_discovery.py`
lines 136–158): the whole body sits in a `try` whose `except Exception`
returns `False`, so the caller only ever sees a boolean. -/
def test_connection_nc (env : ProbeEnv) : Bool :=
  match nc_loop env webos_ports with
  | .ok b => b
  | .error _ => false

/-- One iteration of the socket loop of `test_connection`
(`webos_discovery.py` lines 105–116).  The body's first statement,
`sock = socket.socket(socket.AF_INET, socket.SOCK_STREAM)`, raises
`NameError`: `webos_discovery.py` imports `logging`, `asyncio`,
`typing` and the base module, but never `socket`.  Consequently no
iteration can observe `env.tcp_open`, whatever the network state. -/
def sock_attempt (env : ProbeEnv) (port : Nat) : Except PyErr Bool :=
  .error .nameError

/-- The same iteration after its own `except Exception` clause
(line 114), which logs and continues: a raised error becomes `false`. -/
def sock_attempt_caught (env : ProbeEnv) (port : Nat) : Bool :=
  match sock_attempt env port with
  | .ok b => b
  | .error _ => false

/-- The reverse-DNS step of `test_connection` (`webos_discovery.py`
lines 119–124).  `socket.gethostbyaddr(ip)` raises `NameError` for the
same missing-import reason; evaluating the matching clause
`except socket.herror` then raises `NameError` again, so the error
escapes this inner `try` toward the function-level handler. -/
def dns_attempt (env : ProbeEnv) : Except PyErr Bool :=
  .error .nameError

/-- The probe methods attempted during a `test_connection` run. -/
inductive ProbeStep where
  | ncProbe
  | sockProbe (port : Nat)
  | dnsProbe
deriving DecidableEq

/-- The body of `WebOSDiscovery.test_connection`
(`webos_discovery.py` lines 96–127) before the function-level
`except Exception` handler: netcat step first (returning on success),
then the socket loop over `webos_ports`, then the reverse-DNS attempt,
then `return False` (line 127, reached when reverse resolution raised
`herror`).  Also records which probe methods were attempted. -/
def test_connection_core (env : ProbeEnv) : List ProbeStep × Except PyErr Bool :=
  if test_connection_nc env then ([.ncProbe], .ok true)
  else
    let sock_steps := webos_ports.map ProbeStep.sockProbe
    if webos_ports.any (sock_attempt_caught env) then
      (ProbeStep.ncProbe :: sock_steps, .ok true)
    else
      match dns_attempt env with
      | .ok true => (ProbeStep.ncProbe :: sock_steps ++ [ProbeStep.dnsProbe], .ok true)
      | .ok false => (ProbeStep.ncProbe :: sock_steps ++ [ProbeStep.dnsProbe], .ok false)
      | .error e => (ProbeStep.ncProbe :: sock_steps ++ [ProbeStep.dnsProbe], .error e)

/-- `WebOSDiscovery.test_connection` (`webos_discovery.py`
lines 92–131): the function-level `except Exception` (lines 129–131)
turns any escaped error into `False`, so the caller always receives a
boolean and never an exception. -/
def test_connection (env : ProbeEnv) : Bool :=
  match (test_connection_core env).2 with
  | .ok b => b
  | .error _ => false

/-- State of `TVDiscoveryFactory` plus the ambient Python module/import
state: `discoveries` is the `_discoveries` class dict (keys mapped to
instance identifiers); `next_id` supplies a fresh identity per
constructed strategy instance; `construction_log` records, in order,
one entry per executed strategy constructor call (the observable
construction side effect); `imported` records which discovery modules
have already been imported (a Python module's top level runs at most
once per process). -/
structure FactoryState where
  discoveries : List (String × Nat)
  next_id : Nat
  construction_log : List String
  imported : List String
deriving DecidableEq

/-- A process state in which no discovery module has been imported and
nothing is registered. -/
def fresh_factory : FactoryState := { discoveries := [], next_id := 0, construction_log := [], imported := [] }

/-- Execution of a strategy constructor call such as `WebOSDiscovery()`:
yields a fresh instance identity and logs the construction. -/
def construct (st : FactoryState) (kind : String) : Nat × FactoryState :=
  (st.next_id,
   { st with next_id := st.next_id + 1, construction_log := st.construction_log ++ [kind] })

/-- `TVDiscoveryFactory.register` (`tv_discovery.py` lines 97–100):
`cls._discoveries[tv_type] = discovery_class` — an overwriting dict
assignment (the newest binding shadows any older one under `lookup`). -/
def register (st : FactoryState) (tv_type : String) (inst : Nat) : FactoryState :=
  { st with discoveries := (tv_type, inst) :: st.discoveries }

/-- Importing a vendor discovery module.  For `webos` this is
`webos_discovery.py` lines 160–161: the module's top level constructs a
strategy and registers it under its key, and runs at most once per
process.  Modelled from the spec: the `tizen` and `android` discovery
modules named at `tv_discovery.py` lines 111 and 114 are not part of
the sources; following §4.2's implicit import-on-first-use pattern
(and the one vendor module that is present), their import is modelled
as the same construct-and-register top level. -/
def import_discovery_module (st : FactoryState) (kind : String) : FactoryState :=
  if st.imported.contains kind then st
  else
    let st1 := { st with imported := st.imported ++ [kind] }
    let (i, st2) := construct st1 kind
    register st2 kind i

/-- `TVDiscoveryFactory.get_discovery` (`tv_discovery.py`
lines 102–117): when the key is absent, a built-in key first imports
its vendor module (whose top level already registers an instance) and
then constructs and registers a second instance itself; the final
lookup into `_discoveries` is the returned value (`None` when the key
is unknown). -/
def get_discovery (st : FactoryState) (tv_type : String) : Option Nat × FactoryState :=
  let st1 :=
    if (st.discoveries.lookup tv_type).isNone then
      if tv_type == "webos" || tv_type == "tizen" || tv_type == "android" then
        let st' := import_discovery_module st tv_type
        let (i, st'') := construct st' tv_type
        register st'' tv_type i
      else st
    else st
  (st1.discoveries.lookup tv_type, st1)

/-- The MAC addresses of the triples a scanner output parses into:
the second field of every line that `parse_line` accepts. -/
def parsed_macs (out : String) : List String :=
  (pySplitlines out).filterMap (fun line => (parse_line line).map (fun t => t.2.1))

/-- A probe environment where netcat is unavailable (every spawn raises)
while a raw TCP connect to port 3000 would succeed. -/
def nc_missing_port_3000_open : ProbeEnv :=
  { nc_exit := fun _ => none, tcp_open := fun p => p == 3000, dns_resolves := false }

/-- A probe environment where netcat exits non-zero on every port, no TCP
port is open and reverse DNS fails. -/
def all_probes_fail : ProbeEnv :=
  { nc_exit := fun _ => some 1, tcp_open := fun _ => false, dns_resolves := false }

/-- The device that scanning the single line
`"10.0.0.2\tFC:4D:8C:00:11:22"` (no description field) yields. -/
def lg_device_no_desc : Device :=
  { ip := "10.0.0.2", mac := "FC:4D:8C:00:11:22", description := "LG WebOS TV",
    device_type := "LG WebOS TV", untested := false, warning := none }

/-- A triple skipped by the blacklist filter produces nothing: no device,
no classification, no enrichment. -/
theorem process_triple_blacklisted (s : TVDiscoveryBase) (bl : List String)
    (ip mac : String) (desc : Option String)
    (h : bl.any (fun addr => pyLower addr == pyLower mac) = true) :
    process_triple s bl ip mac desc = ([], .ok none) := by
  unfold process_triple
  simp [h]

/-- An accepted triple's device is exactly the enrichment of the
constructed record, and its MAC was not blacklisted. -/
theorem process_triple_ok_some (s : TVDiscoveryBase) (bl : List String)
    (ip mac : String) (desc : Option String) (evs : List ScanEvent) (d : Device)
    (h : process_triple s bl ip mac desc = (evs, .ok (some d))) :
    bl.any (fun addr => pyLower addr == pyLower mac) = false
      ∧ d = s.enrich_device_info (make_device s ip mac desc) := by
  unfold process_triple at h
  split at h
  · simp at h
  · next hb =>
    simp only [Bool.not_eq_true] at hb
    refine ⟨hb, ?_⟩
    cases hls : (List.lookup (pyTake (pyUpper mac) 8) s.get_mac_prefixes).isSome with
    | true =>
      simp [hls] at h
      exact h.2.symm
    | false =>
      cases hd : s.is_tv_device desc with
      | error e => simp [hls, hd] at h
      | ok b =>
        cases b with
        | true =>
          simp [hls, hd] at h
          exact h.2.symm
        | false => simp [hls, hd] at h

/-- Every call performed while processing a triple refers to that triple's
MAC, and happens only when the MAC passed the blacklist filter. -/
theorem process_triple_events (s : TVDiscoveryBase) (bl : List String)
    (ip mac : String) (desc : Option String) :
    ∀ e ∈ (process_triple s bl ip mac desc).1,
      bl.any (fun addr => pyLower addr == pyLower mac) = false ∧ e.mac = mac := by
  intro e he
  unfold process_triple at he
  split at he
  · simp at he
  · next hb =>
    simp only [Bool.not_eq_true] at hb
    refine ⟨hb, ?_⟩
    cases hls : (List.lookup (pyTake (pyUpper mac) 8) s.get_mac_prefixes).isSome with
    | true =>
      simp [hls] at he
      rcases he with he | he <;> simp [he, ScanEvent.mac]
    | false =>
      cases hd : s.is_tv_device desc with
      | error e' =>
        simp [hls, hd] at he
        rcases he with he | he <;> simp [he, ScanEvent.mac]
      | ok b =>
        cases b with
        | true =>
          simp [hls, hd] at he
          rcases he with he | he | he <;> simp [he, ScanEvent.mac]
        | false =>
          simp [hls, hd] at he
          rcases he with he | he <;> simp [he, ScanEvent.mac]

/-- Origin of a returned device: every device in a successful scan result
arises from some parsed line, passed the blacklist filter, and equals
the enrichment of the record constructed for its triple. -/
theorem scan_lines_mem (s : TVDiscoveryBase) (bl : List String) :
    ∀ (lines : List String) (ds : List Device) (d : Device),
      (scan_lines s bl lines).2 = Except.ok ds → d ∈ ds →
      ∃ line ∈ lines, ∃ ip mac desc,
        parse_line line = some (ip, mac, desc)
        ∧ bl.any (fun addr => pyLower addr == pyLower mac) = false
        ∧ d = s.enrich_device_info (make_device s ip mac desc) := by
  intro lines
  induction lines with
  | nil =>
    intro ds d hok hd
    simp [scan_lines] at hok
    subst hok
    simp at hd
  | cons line rest ih =>
    intro ds d hok hd
    cases hp : parse_line line with
    | none =>
      simp only [scan_lines, hp] at hok
      obtain ⟨l, hl, rest_ex⟩ := ih ds d hok hd
      exact ⟨l, List.mem_cons_of_mem _ hl, rest_ex⟩
    | some t =>
      obtain ⟨ip, mac, desc⟩ := t
      cases hq : process_triple s bl ip mac desc with
      | mk evs r =>
        cases r with
        | error e =>
          simp only [scan_lines, hp, hq] at hok
          simp at hok
        | ok od =>
          cases od with
          | none =>
            cases hr : scan_lines s bl rest with
            | mk evs' r' =>
              simp only [scan_lines, hp, hq, hr] at hok
              obtain ⟨l, hl, rest_ex⟩ := ih ds d (by rw [hr]; exact hok) hd
              exact ⟨l, List.mem_cons_of_mem _ hl, rest_ex⟩
          | some d0 =>
            cases hr : scan_lines s bl rest with
            | mk evs' r' =>
              simp only [scan_lines, hp, hq, hr] at hok
              cases r' with
              | error e => simp [Except.map] at hok
              | ok ds' =>
                simp [Except.map] at hok
                subst hok
                rcases List.mem_cons.mp hd with hd0 | hmem
                · subst hd0
                  obtain ⟨hbl, hdev⟩ := process_triple_ok_some s bl ip mac desc evs d hq
                  exact ⟨line, List.mem_cons_self _ _, ip, mac, desc, hp, hbl, hdev⟩
                · obtain ⟨l, hl, rest_ex⟩ := ih ds' d (by rw [hr]) hmem
                  exact ⟨l, List.mem_cons_of_mem _ hl, rest_ex⟩

/-- Origin of a performed call: every classification/heuristic/enrichment
call made during the scan loop refers to the MAC of some parsed triple
that passed the blacklist filter. -/
theorem scan_lines_events_mem (s : TVDiscoveryBase) (bl : List String) :
    ∀ (lines : List String) (e : ScanEvent), e ∈ (scan_lines s bl lines).1 →
      bl.any (fun addr => pyLower addr == pyLower e.mac) = false := by
  intro lines
  induction lines with
  | nil =>
    intro e he
    simp [scan_lines] at he
  | cons line rest ih =>
    intro e he
    cases hp : parse_line line with
    | none =>
      simp only [scan_lines, hp] at he
      exact ih e he
    | some t =>
      obtain ⟨ip, mac, desc⟩ := t
      cases hq : process_triple s bl ip mac desc with
      | mk evs r =>
        have hself : e ∈ evs →
            bl.any (fun addr => pyLower addr == pyLower e.mac) = false := by
          intro hin
          obtain ⟨hbl, hm⟩ := process_triple_events s bl ip mac desc e (by rw [hq]; exact hin)
          rw [hm]
          exact hbl
        cases r with
        | error er =>
          simp only [scan_lines, hp, hq] at he
          exact hself he
        | ok od =>
          cases od with
          | none =>
            cases hr : scan_lines s bl rest with
            | mk evs' r' =>
              simp only [scan_lines, hp, hq, hr] at he
              rcases List.mem_append.mp he with hin | hin
              · exact hself hin
              · exact ih e (by rw [hr]; exact hin)
          | some d0 =>
            cases hr : scan_lines s bl rest with
            | mk evs' r' =>
              simp only [scan_lines, hp, hq, hr] at he
              rcases List.mem_append.mp he with hin | hin
              · exact hself hin
              · exact ih e (by rw [hr]; exact hin)

/-- C1: for the raw scanner output line
`192.168.1.5`, `7C:AB:25:11:22:33`, `My LG TV` (tab-separated) and an
empty blacklist, the WebOS strategy's `scan_network` returns exactly
one device, with `ip = "192.168.1.5"`, `mac = "7C:AB:25:11:22:33"`,
`device_type = "LG WebOS TV"` (the table value for prefix `7C:AB:25`)
and `untested = false`. -/
theorem scan_network_end_to_end_lg :
    scan_network WebOSDiscovery [] (Except.ok "192.168.1.5\t7C:AB:25:11:22:33\tMy LG TV") =
      [{ ip := "192.168.1.5", mac := "7C:AB:25:11:22:33", description := "My LG TV",
         device_type := "LG WebOS TV", untested := false, warning := none }] := by
  decide

/-- C2: for every strategy whose enrichment hook leaves the MAC field
alone (as the repository's strategies do), every scanner output and
every blacklist, no device whose MAC is case-insensitively blacklisted
appears in `scan_network`'s result, and no classification, heuristic or
enrichment call is ever made for a blacklisted MAC. -/
theorem scan_network_blacklist_excluded (s : TVDiscoveryBase) (bl : List String)
    (arp : Except PyErr String)
    (hmac : ∀ d, (s.enrich_device_info d).mac = d.mac) :
    ((scan_network s bl arp).all
        (fun d => !(bl.any (fun addr => pyLower addr == pyLower d.mac))) = true)
    ∧ ((scan_network_events s bl arp).all
        (fun e => !(bl.any (fun addr => pyLower addr == pyLower e.mac))) = true) := by
  constructor
  · cases arp with
    | error e => simp [scan_network]
    | ok out =>
      unfold scan_network
      cases hres : (scan_lines s bl (pySplitlines out)).2 with
      | error e => simp only [hres]; simp
      | ok ds =>
        simp only [hres, List.all_eq_true]
        intro d hd
        obtain ⟨l, hl, ip, mac, desc, hp, hbl, hdev⟩ :=
          scan_lines_mem s bl (pySplitlines out) ds d hres hd
        have hm : d.mac = mac := by
          rw [hdev, hmac, make_device]
        rw [hm, hbl]
        rfl
  · cases arp with
    | error e => simp [scan_network_events]
    | ok out =>
      unfold scan_network_events
      simp only [List.all_eq_true]
      intro e he
      rw [scan_lines_events_mem s bl (pySplitlines out) e he]
      rfl

/-- C2 witness: the blacklisted LG device is dropped while the other LG
device on the same scan is kept, and no pipeline call mentions the
blacklisted MAC. -/
theorem scan_network_blacklist_excluded_witness :
    ((scan_network WebOSDiscovery ["7C:AB:25:11:22:33"]
        (Except.ok "192.168.1.5\t7C:AB:25:11:22:33\tMy LG TV\n192.168.1.6\tFC:4D:8C:00:11:22\tOther LG")).all
        (fun d => !(["7C:AB:25:11:22:33"].any (fun addr => pyLower addr == pyLower d.mac))) = true)
    ∧ ((scan_network_events WebOSDiscovery ["7C:AB:25:11:22:33"]
        (Except.ok "192.168.1.5\t7C:AB:25:11:22:33\tMy LG TV\n192.168.1.6\tFC:4D:8C:00:11:22\tOther LG")).all
        (fun e => !(["7C:AB:25:11:22:33"].any (fun addr => pyLower addr == pyLower e.mac))) = true) :=
  scan_network_blacklist_excluded WebOSDiscovery ["7C:AB:25:11:22:33"]
    (Except.ok "192.168.1.5\t7C:AB:25:11:22:33\tMy LG TV\n192.168.1.6\tFC:4D:8C:00:11:22\tOther LG")
    (fun _ => rfl)

/-- C4 (bug evidence): a triple with an absent description whose MAC
prefix is not in the table makes `WebOSDiscovery._is_tv_device(None)`
raise `TypeError`, which aborts the whole scan: the scan returns the
empty list and every other (valid) triple of the same scan is dropped,
whichever side of the failing line it is on.  Alone, the valid LG line
does produce its device. -/
theorem scan_network_absent_description_bug :
    scan_network WebOSDiscovery []
      (Except.ok "192.168.1.9\tAA:BB:CC:11:22:33\n192.168.1.5\t7C:AB:25:11:22:33\tMy LG TV") = []
    ∧ (scan_lines WebOSDiscovery []
        (pySplitlines "192.168.1.9\tAA:BB:CC:11:22:33\n192.168.1.5\t7C:AB:25:11:22:33\tMy LG TV")).2
        = Except.error PyErr.typeError
    ∧ scan_network WebOSDiscovery []
        (Except.ok "192.168.1.5\t7C:AB:25:11:22:33\tMy LG TV\n192.168.1.9\tAA:BB:CC:11:22:33") = []
    ∧ scan_network WebOSDiscovery [] (Except.ok "192.168.1.5\t7C:AB:25:11:22:33\tMy LG TV") ≠ [] := by
  refine ⟨by decide, by decide, by decide, by decide⟩

/-- C5: on any adapter-level failure — the `arp-scan` subprocess raising
(non-zero exit, missing tool, or any other error), or any exception
raised while processing its output — `scan_network` returns the empty
list; it is total, so no exception reaches the caller. -/
theorem scan_network_adapter_failure_empty :
    (∀ (s : TVDiscoveryBase) (bl : List String) (e : PyErr),
        scan_network s bl (Except.error e) = [])
    ∧ (∀ (s : TVDiscoveryBase) (bl : List String) (out : String) (e : PyErr),
        (scan_lines s bl (pySplitlines out)).2 = Except.error e →
        scan_network s bl (Except.ok out) = []) := by
  constructor
  · intro s bl e
    rfl
  · intro s bl out e h
    unfold scan_network
    dsimp only
    rw [h]

/-- C5 witness: a scan whose processing raises (absent description,
unknown prefix) returns the empty list. -/
theorem scan_network_adapter_failure_empty_witness :
    scan_network WebOSDiscovery [] (Except.ok "192.168.1.9\tAA:BB:CC:11:22:33") = [] :=
  scan_network_adapter_failure_empty.2 WebOSDiscovery [] "192.168.1.9\tAA:BB:CC:11:22:33"
    PyErr.typeError (by decide)

/-- C8: for every strategy whose warning message obeys the declared
contract (`None` or a non-empty advisory) and whose enrichment hook
leaves the `untested` and `warning` fields alone (as the repository's
strategies do), every device returned by `scan_network` has
`warning` equal to the strategy's `get_warning_message`, `untested`
true exactly when that message is present, and `warning` present
exactly when `untested` is true.  For WebOS the message is `None`,
so `untested = false` and `warning` absent. -/
theorem scan_network_untested_iff_warning (s : TVDiscoveryBase) (bl : List String)
    (arp : Except PyErr String)
    (henrich : ∀ d, (s.enrich_device_info d).untested = d.untested
        ∧ (s.enrich_device_info d).warning = d.warning)
    (hw : s.get_warning_message ≠ some "") :
    ∀ d ∈ scan_network s bl arp,
      d.warning = s.get_warning_message
      ∧ (d.untested = true ↔ (s.get_warning_message).isSome = true)
      ∧ d.warning.isSome = d.untested := by
  intro d hd
  cases arp with
  | error e => simp [scan_network] at hd
  | ok out =>
    unfold scan_network at hd
    dsimp only at hd
    cases hres : (scan_lines s bl (pySplitlines out)).2 with
    | error e => rw [hres] at hd; simp at hd
    | ok ds =>
      rw [hres] at hd
      obtain ⟨l, hl, ip, mac, desc, hp, hbl, hdev⟩ :=
        scan_lines_mem s bl (pySplitlines out) ds d hres hd
      have hpt : pyTruthy s.get_warning_message = (s.get_warning_message).isSome := by
        cases hwm : s.get_warning_message with
        | none => rfl
        | some m =>
          have hne : ¬(m == "") = true := by
            intro hmm
            exact hw (by rw [hwm]; exact congrArg some (by simpa using hmm))
          simp [pyTruthy, Bool.not_eq_true] at hne ⊢
          exact hne
      have h1 : d.untested = pyTruthy s.get_warning_message := by
        rw [hdev, (henrich _).1, make_device]
      have h2 : d.warning = s.get_warning_message := by
        rw [hdev, (henrich _).2, make_device]
      refine ⟨h2, ?_, ?_⟩
      · rw [h1, hpt]
      · rw [h2, h1, hpt]

/-- C8 witness: the concrete WebOS device discovered from a line without
a description has no warning and `untested = false`. -/
theorem scan_network_untested_iff_warning_witness :
    lg_device_no_desc.warning = WebOSDiscovery.get_warning_message
    ∧ (lg_device_no_desc.untested = true ↔ (WebOSDiscovery.get_warning_message).isSome = true)
    ∧ lg_device_no_desc.warning.isSome = lg_device_no_desc.untested :=
  scan_network_untested_iff_warning WebOSDiscovery []
    (Except.ok "10.0.0.2\tFC:4D:8C:00:11:22")
    (fun _ => ⟨rfl, rfl⟩) (by decide) lg_device_no_desc (by decide)

/-- C9 counterexample: a scanner line reporting a lowercase MAC yields a
device whose `mac` field is the lowercase string, not the canonical
uppercase form the claim requires. -/
theorem scan_network_mac_not_uppercased :
    (scan_network WebOSDiscovery []
        (Except.ok "192.168.1.5\t7c:ab:25:11:22:33\tMy LG TV")).map Device.mac
      = ["7c:ab:25:11:22:33"]
    ∧ "7c:ab:25:11:22:33" ≠ pyUpper "7c:ab:25:11:22:33" := by
  refine ⟨by decide, by decide⟩

/-- C9 as amended: for every strategy whose enrichment hook leaves the
MAC field alone, every device returned by `scan_network` carries the
scanner-reported MAC verbatim (no case normalisation); only the
8-character prefix used for the table lookup is uppercased. -/
theorem scan_network_mac_verbatim (s : TVDiscoveryBase) (bl : List String) (out : String)
    (hmac : ∀ d, (s.enrich_device_info d).mac = d.mac) :
    ∀ d ∈ scan_network s bl (Except.ok out), d.mac ∈ parsed_macs out := by
  intro d hd
  unfold scan_network at hd
  dsimp only at hd
  cases hres : (scan_lines s bl (pySplitlines out)).2 with
  | error e => rw [hres] at hd; simp at hd
  | ok ds =>
    rw [hres] at hd
    obtain ⟨l, hl, ip, mac, desc, hp, hbl, hdev⟩ :=
      scan_lines_mem s bl (pySplitlines out) ds d hres hd
    have hm : d.mac = mac := by rw [hdev, hmac, make_device]
    rw [hm]
    unfold parsed_macs
    exact List.mem_filterMap.mpr ⟨l, hl, by rw [hp]; rfl⟩

/-- C9 amended witness: the lowercase MAC returned for the lowercase
scanner line is among the scanner-reported MACs. -/
theorem scan_network_mac_verbatim_witness :
    ({ ip := "192.168.1.5", mac := "7c:ab:25:11:22:33", description := "My LG TV",
       device_type := "LG WebOS TV", untested := false, warning := none } : Device).mac
      ∈ parsed_macs "192.168.1.5\t7c:ab:25:11:22:33\tMy LG TV" :=
  scan_network_mac_verbatim WebOSDiscovery [] "192.168.1.5\t7c:ab:25:11:22:33\tMy LG TV"
    (fun _ => rfl)
    { ip := "192.168.1.5", mac := "7c:ab:25:11:22:33", description := "My LG TV",
      device_type := "LG WebOS TV", untested := false, warning := none }
    (by decide)

/-- C10: a non-blacklisted triple whose uppercased 8-character MAC prefix
is a key of the strategy's table is accepted and its device constructed
without `_is_tv_device` ever being invoked (Python's `or`
short-circuits), so — the description being universally quantified,
including `none` — an absent description can neither raise nor change
the acceptance verdict for table-matched triples. -/
theorem process_triple_table_short_circuit (s : TVDiscoveryBase) (bl : List String)
    (ip mac : String) (desc : Option String) (v : String)
    (hnb : bl.any (fun addr => pyLower addr == pyLower mac) = false)
    (ht : s.get_mac_prefixes.lookup (pyTake (pyUpper mac) 8) = some v) :
    (process_triple s bl ip mac desc).2
        = Except.ok (some (s.enrich_device_info (make_device s ip mac desc)))
    ∧ (process_triple s bl ip mac desc).1
        = [ScanEvent.classifyCalled mac, ScanEvent.enrichCalled mac] := by
  unfold process_triple
  rw [hnb]
  have hsome : (s.get_mac_prefixes.lookup (pyTake (pyUpper mac) 8)).isSome = true := by
    rw [ht]; rfl
  simp [hsome]

/-- C10 witness: a lowercase LG MAC with no description is accepted via
the table without any heuristic call. -/
theorem process_triple_table_short_circuit_witness :
    (process_triple WebOSDiscovery [] "192.168.1.5" "7c:ab:25:11:22:33" none).2
        = Except.ok (some (WebOSDiscovery.enrich_device_info
            (make_device WebOSDiscovery "192.168.1.5" "7c:ab:25:11:22:33" none)))
    ∧ (process_triple WebOSDiscovery [] "192.168.1.5" "7c:ab:25:11:22:33" none).1
        = [ScanEvent.classifyCalled "7c:ab:25:11:22:33",
           ScanEvent.enrichCalled "7c:ab:25:11:22:33"] :=
  process_triple_table_short_circuit WebOSDiscovery [] "192.168.1.5" "7c:ab:25:11:22:33"
    none "LG WebOS TV" (by decide) (by decide)

/-- When no port's netcat invocation exits zero, the netcat loop never
reports success: it either finishes all ports (`ok false`) or a spawn
error aborts it. -/
theorem nc_loop_no_success (env : ProbeEnv) :
    ∀ (ports : List Nat), (∀ p ∈ ports, env.nc_exit p ≠ some 0) →
      nc_loop env ports ≠ Except.ok true := by
  intro ports
  induction ports with
  | nil => intro _ h; simp [nc_loop] at h
  | cons p rest ih =>
    intro hall h
    unfold nc_loop at h
    cases he : env.nc_exit p with
    | none => rw [he] at h; simp at h
    | some code =>
      simp only [he] at h
      have hc : (code == 0) = false := by
        rw [Bool.eq_false_iff]
        intro hcc
        exact hall p (List.mem_cons_self _ _) (by rw [he]; exact congrArg some (by simpa using hcc))
      rw [hc] at h
      simp at h
      exact ih (fun q hq => hall q (List.mem_cons_of_mem _ hq)) h

/-- `_test_connection_nc` returns `false` whenever no netcat invocation
exits zero. -/
theorem test_connection_nc_no_success (env : ProbeEnv)
    (h : ∀ p ∈ webos_ports, env.nc_exit p ≠ some 0) :
    test_connection_nc env = false := by
  unfold test_connection_nc
  cases hl : nc_loop env webos_ports with
  | error e => rfl
  | ok b =>
    cases b with
    | false => rfl
    | true => exact absurd hl (nc_loop_no_success env webos_ports h)

/-- C3 (bug evidence): in an environment where netcat is unavailable but
a raw TCP connect to port 3000 would succeed, `test_connection` returns
`false` — not `true` as specified — and the reverse-DNS step is
attempted rather than skipped.  `webos_discovery.py` never imports
`socket`, so the socket loop raises `NameError` on every port instead
of connecting, and the reverse-DNS attempt raises `NameError` as well,
which the function-level handler converts to `False`. -/
theorem test_connection_missing_socket_import_bug :
    nc_missing_port_3000_open.tcp_open 3000 = true
    ∧ webos_ports.all (fun p => (nc_missing_port_3000_open.nc_exit p).isNone) = true
    ∧ test_connection nc_missing_port_3000_open = false
    ∧ ProbeStep.dnsProbe ∈ (test_connection_core nc_missing_port_3000_open).1 := by
  refine ⟨by decide, by decide, by decide, by decide⟩

/-- C6: when the netcat probe succeeds on no port, no TCP control port is
open and reverse DNS fails, `test_connection` returns `false`; the
function is total (every internal exception is caught), so no exception
reaches the caller, and the negative verdict is produced only after the
netcat, socket and reverse-DNS methods have all been attempted. -/
theorem test_connection_all_methods_fail_false (env : ProbeEnv)
    (hnc : ∀ p ∈ webos_ports, env.nc_exit p ≠ some 0)
    (hsock : ∀ p ∈ webos_ports, env.tcp_open p = false)
    (hdns : env.dns_resolves = false) :
    test_connection env = false
    ∧ (test_connection_core env).1
        = ProbeStep.ncProbe :: webos_ports.map ProbeStep.sockProbe ++ [ProbeStep.dnsProbe] := by
  have htc : test_connection_nc env = false := test_connection_nc_no_success env hnc
  constructor
  · unfold test_connection test_connection_core
    rw [htc]
    simp [sock_attempt_caught, sock_attempt, dns_attempt]
  · unfold test_connection_core
    rw [htc]
    simp [sock_attempt_caught, sock_attempt, dns_attempt]

/-- C6 witness: with netcat exiting non-zero everywhere, no open port and
no reverse DNS, the verdict is `false` after all three methods ran. -/
theorem test_connection_all_methods_fail_false_witness :
    test_connection all_probes_fail = false
    ∧ (test_connection_core all_probes_fail).1
        = ProbeStep.ncProbe :: webos_ports.map ProbeStep.sockProbe ++ [ProbeStep.dnsProbe] :=
  test_connection_all_methods_fail_false all_probes_fail
    (by intro p hp h; simp [all_probes_fail] at h) (by intro p hp; rfl) rfl

/-- C7 counterexample: the first `get_discovery('webos')` on a fresh
process constructs `WebOSDiscovery` twice — once by the imported
module's own registration line (`webos_discovery.py` line 161) and once
by the factory's explicit `cls.register('webos', WebOSDiscovery())`
(`tv_discovery.py` line 109) — refuting "constructed at most once". -/
theorem get_discovery_double_construction :
    ((get_discovery fresh_factory "webos").2).construction_log = ["webos", "webos"] := by
  decide

/-- C7 as amended: `get_discovery` is idempotent per key — a second call
with the same key returns the same instance and the same state (so no
further construction or registration occurs); the first request for
each built-in key returns a strategy; an unknown, unregistered key
yields `none` and leaves the state untouched; but the first request for
a built-in key performs two constructions, the second instance
overwriting the first. -/
theorem get_discovery_idempotent_lazy :
    (∀ (st : FactoryState) (k : String),
        get_discovery (get_discovery st k).2 k = get_discovery st k)
    ∧ (["webos", "tizen", "android"].all
        (fun k => ((get_discovery fresh_factory k).1).isSome) = true)
    ∧ (∀ (st : FactoryState) (k : String),
        (k == "webos" || k == "tizen" || k == "android") = false →
        st.discoveries.lookup k = none →
        get_discovery st k = (none, st))
    ∧ (get_discovery fresh_factory "webos").2.construction_log.length = 2 := by
  refine ⟨?_, by decide, ?_, by decide⟩
  · intro st k
    by_cases h1 : (st.discoveries.lookup k).isNone = true
    · by_cases hb : (k == "webos" || k == "tizen" || k == "android") = true
      · simp only [get_discovery, h1, hb, if_true, construct, register]
        simp [List.lookup]
      · have hb' : (k == "webos" || k == "tizen" || k == "android") = false := by
          simpa using hb
        simp [get_discovery, h1, hb']
    · have h1' : (st.discoveries.lookup k).isNone = false := by
        simpa using h1
      simp [get_discovery, h1']
  · intro st k hb hn
    have h1 : (st.discoveries.lookup k).isNone = true := by rw [hn]; rfl
    simp [get_discovery, h1, hb, hn]

/-- C7 amended witness: an unknown key yields `none` and an unchanged
registry. -/
theorem get_discovery_idempotent_lazy_witness :
    get_discovery fresh_factory "samsung" = (none, fresh_factory) :=
  get_discovery_idempotent_lazy.2.2.1 fresh_factory "samsung" (by decide) (by decide)
